import Mathlib

/-!
Shallow embedding of `disney_brdf_pyvista.py`: the parameter store, the
slider callbacks, the preset table with `apply_preset`, the presentation
adapter `update_materials`, and the torus-knot curve sampling of
`create_torus_knot`.  Scalar parameters are modelled as rationals; the
parametric curve is modelled over the reals.
-/

/-- The mutable `params` dictionary (lines 31-40 of the source): base color
as three channels plus seven material scalars. -/
structure Params where
  base_color_r : ℚ
  base_color_g : ℚ
  base_color_b : ℚ
  metallic : ℚ
  roughness : ℚ
  specular : ℚ
  anisotropic : ℚ
  anisotropic_rotation : ℚ
  clearcoat : ℚ
  clearcoat_roughness : ℚ
deriving DecidableEq, Repr

/-- The initial contents of `params`: mid-gray base color, metallic 0,
roughness 0.5, specular 0.5, everything else 0. -/
def initParams : Params :=
  { base_color_r := 0.5
    base_color_g := 0.5
    base_color_b := 0.5
    metallic := 0.0
    roughness := 0.5
    specular := 0.5
    anisotropic := 0.0
    anisotropic_rotation := 0.0
    clearcoat := 0.0
    clearcoat_roughness := 0.0 }

/-- The IOR derivation inside `update_materials`:
`ior = 1.0 + params['specular'] * 0.8`. -/
def ior (specular : ℚ) : ℚ := 1.0 + specular * 0.8

/-- The ten fields of the store as a list, in source declaration order:
r, g, b, metallic, roughness, specular, anisotropic, anisotropic_rotation,
clearcoat, clearcoat_roughness. -/
def paramFields (p : Params) : List ℚ :=
  [p.base_color_r, p.base_color_g, p.base_color_b, p.metallic, p.roughness,
   p.specular, p.anisotropic, p.anisotropic_rotation, p.clearcoat,
   p.clearcoat_roughness]

/-- Slider callback `update_metallic`: store mutation (the subsequent
`update_materials()` push is modelled separately by `update_materials`). -/
def update_metallic (value : ℚ) (p : Params) : Params :=
  { p with metallic := value }

/-- Slider callback `update_roughness`. -/
def update_roughness (value : ℚ) (p : Params) : Params :=
  { p with roughness := value }

/-- Slider callback `update_specular`. -/
def update_specular (value : ℚ) (p : Params) : Params :=
  { p with specular := value }

/-- Slider callback `update_anisotropic`. -/
def update_anisotropic (value : ℚ) (p : Params) : Params :=
  { p with anisotropic := value }

/-- Slider callback `update_anisotropic_rotation`. -/
def update_anisotropic_rotation (value : ℚ) (p : Params) : Params :=
  { p with anisotropic_rotation := value }

/-- Slider callback `update_clearcoat`. -/
def update_clearcoat (value : ℚ) (p : Params) : Params :=
  { p with clearcoat := value }

/-- Slider callback `update_clearcoat_roughness`. -/
def update_clearcoat_roughness (value : ℚ) (p : Params) : Params :=
  { p with clearcoat_roughness := value }

/-- Slider callback `update_base_color_r` (`params['base_color'][0] = value`). -/
def update_base_color_r (value : ℚ) (p : Params) : Params :=
  { p with base_color_r := value }

/-- Slider callback `update_base_color_g`. -/
def update_base_color_g (value : ℚ) (p : Params) : Params :=
  { p with base_color_g := value }

/-- Slider callback `update_base_color_b`. -/
def update_base_color_b (value : ℚ) (p : Params) : Params :=
  { p with base_color_b := value }

/-- One entry of the `presets` dictionary inside `apply_preset`.  The keys
`specular`, `anisotropic` and `clearcoat` are read with `dict.get` and a
default, so they are optional here. -/
structure Preset where
  color : ℚ × ℚ × ℚ
  metallic : ℚ
  roughness : ℚ
  specular : Option ℚ
  anisotropic : Option ℚ
  clearcoat : Option ℚ
deriving DecidableEq, Repr

/-- The `presets` dictionary lookup of `apply_preset`: seven named presets,
unknown names yield nothing. -/
def presets (name : String) : Option Preset :=
  if name = "gold" then
    some { color := (1.0, 0.7, 0.3), metallic := 1.0, roughness := 0.2,
           specular := some 0.5, anisotropic := some 0.0, clearcoat := some 0.0 }
  else if name = "chrome" then
    some { color := (0.88, 0.88, 0.88), metallic := 1.0, roughness := 0.05,
           specular := some 0.5, anisotropic := some 0.0, clearcoat := some 0.0 }
  else if name = "plastic" then
    some { color := (0.8, 0.2, 0.2), metallic := 0.0, roughness := 0.3,
           specular := some 0.5, anisotropic := some 0.0, clearcoat := some 0.5 }
  else if name = "rubber" then
    some { color := (0.15, 0.15, 0.15), metallic := 0.0, roughness := 0.9,
           specular := some 0.5, anisotropic := some 0.0, clearcoat := some 0.0 }
  else if name = "wood" then
    some { color := (0.42, 0.2, 0.06), metallic := 0.0, roughness := 0.7,
           specular := some 0.5, anisotropic := some 0.0, clearcoat := some 0.1 }
  else if name = "car_paint" then
    some { color := (0.8, 0.0, 0.0), metallic := 0.0, roughness := 0.1,
           specular := some 0.5, anisotropic := some 0.0, clearcoat := some 1.0 }
  else if name = "brushed_metal" then
    some { color := (0.7, 0.7, 0.7), metallic := 1.0, roughness := 0.3,
           specular := some 0.5, anisotropic := some 0.8, clearcoat := some 0.0 }
  else none

/-- The seven preset names, in the dictionary's declaration order. -/
def presetNames : List String :=
  ["gold", "chrome", "plastic", "rubber", "wood", "car_paint", "brushed_metal"]

/-- The store contents written by the `if preset_name in presets` branch of
`apply_preset`: every field is assigned, with `preset.get` defaults
(specular 0.5, anisotropic 0.0, clearcoat 0.0) and unconditional resets of
anisotropic_rotation and clearcoat_roughness to 0.0. -/
def apply_preset_data (pr : Preset) : Params :=
  { base_color_r := pr.color.1
    base_color_g := pr.color.2.1
    base_color_b := pr.color.2.2
    metallic := pr.metallic
    roughness := pr.roughness
    specular := pr.specular.getD 0.5
    anisotropic := pr.anisotropic.getD 0.0
    anisotropic_rotation := 0.0
    clearcoat := pr.clearcoat.getD 0.0
    clearcoat_roughness := 0.0 }

/-- `apply_preset`: on a known name, overwrite the store and push
(`update_materials`, recorded by the boolean); on an unknown name, do
nothing at all. -/
def apply_preset (name : String) (p : Params) : Params × Bool :=
  match presets name with
  | some pr => (apply_preset_data pr, true)
  | none => (p, false)

/-- The PBR properties written on a render actor by `update_materials`. -/
structure ActorProps where
  color : ℚ × ℚ × ℚ
  metallic : ℚ
  roughness : ℚ
  baseIOR : ℚ
  anisotropy : ℚ
  anisotropyRotation : ℚ
  coatStrength : ℚ
  coatRoughness : ℚ
deriving DecidableEq, Repr

/-- The eight property setter calls made on one actor by `update_materials`
(`SetColor`, `SetMetallic`, `SetRoughness`, `SetBaseIOR`, `SetAnisotropy`,
`SetAnisotropyRotation`, `SetCoatStrength`, `SetCoatRoughness`). -/
def setActorProps (a : ActorProps) (c : ℚ × ℚ × ℚ) (p : Params) (i : ℚ) : ActorProps :=
  { a with
    color := c
    metallic := p.metallic
    roughness := p.roughness
    baseIOR := i
    anisotropy := p.anisotropic
    anisotropyRotation := p.anisotropic_rotation
    coatStrength := p.clearcoat
    coatRoughness := p.clearcoat_roughness }

/-- The scene state touched by `update_materials`: the two registered
actors and a count of `plotter.render()` calls. -/
structure Scene where
  sphere_actor : ActorProps
  torus_actor : ActorProps
  renders : ℕ
deriving DecidableEq, Repr

/-- `update_materials`: compute the color tuple and the derived IOR, write
all eight properties on the sphere actor and on the torus-knot actor, then
call `plotter.render()` once. -/
def update_materials (p : Params) (sc : Scene) : Scene :=
  let color := (p.base_color_r, p.base_color_g, p.base_color_b)
  let i := ior p.specular
  { sphere_actor := setActorProps sc.sphere_actor color p i
    torus_actor := setActorProps sc.torus_actor color p i
    renders := sc.renders + 1 }

/-- A scalar lies in the unit interval. -/
def inUnit (x : ℚ) : Prop := 0 ≤ x ∧ x ≤ 1

instance (x : ℚ) : Decidable (inUnit x) := by unfold inUnit; infer_instance

/-- Every field of the store lies in its declared unit-interval range. -/
def inRange (p : Params) : Prop :=
  inUnit p.base_color_r ∧ inUnit p.base_color_g ∧ inUnit p.base_color_b ∧
  inUnit p.metallic ∧ inUnit p.roughness ∧ inUnit p.specular ∧
  inUnit p.anisotropic ∧ inUnit p.anisotropic_rotation ∧
  inUnit p.clearcoat ∧ inUnit p.clearcoat_roughness

instance (p : Params) : Decidable (inRange p) := by unfold inRange; infer_instance

/-- Torus-knot sample parameter: `np.linspace(0, 2*np.pi, resolution)` at
index `i`, i.e. `resolution` evenly spaced values over the closed interval
`[0, 2*pi]` (endpoint included), step `2*pi/(resolution-1)`; a single
sample sits at 0. -/
noncomputable def torusKnotT (resolution i : ℕ) : ℝ :=
  if resolution ≤ 1 then 0 else 2 * Real.pi * i / (resolution - 1)

/-- One sampled point of the torus-knot parametric curve:
`r = cos(q*t) + 2`, `x = r*cos(p*t)`, `y = r*sin(p*t)`, `z = -sin(q*t)`. -/
noncomputable def torusKnotPoint (p q : ℕ) (t : ℝ) : ℝ × ℝ × ℝ :=
  ((Real.cos (q * t) + 2) * Real.cos (p * t),
   (Real.cos (q * t) + 2) * Real.sin (p * t),
   -Real.sin (q * t))

/-- The sampled polyline of `create_torus_knot` before the spline/tube
sweep: the curve evaluated at every linspace sample. -/
noncomputable def torusKnotCurve (p q resolution : ℕ) : List (ℝ × ℝ × ℝ) :=
  (List.range resolution).map fun i => torusKnotPoint p q (torusKnotT resolution i)

/-- The error condition the specification postulates for the mesh
builders. -/
inductive MeshError
  | InvalidArgument
deriving DecidableEq, Repr

/-- `create_torus_knot` as an (in principle) fallible builder: the source
performs no validation whatsoever, so it returns the sampled polyline for
every argument and never produces an error. -/
noncomputable def create_torus_knot (p q resolution : ℕ) :
    Except MeshError (List (ℝ × ℝ × ℝ)) :=
  .ok (torusKnotCurve p q resolution)

/-- C2: the derived index of refraction is the linear map
`ior(specular) = 1.0 + specular * 0.8`; on the slider domain `[0, 1]` it
stays in `[1.0, 1.8]`, with `ior 0 = 1`, `ior 0.5 = 1.4`, `ior 1 = 1.8`. -/
theorem ior_linear_range (s : ℚ) (h0 : 0 ≤ s) (h1 : s ≤ 1) :
    ior s = 1.0 + s * 0.8 ∧ 1 ≤ ior s ∧ ior s ≤ 1.8 ∧
    ior 0.0 = 1.0 ∧ ior 0.5 = 1.4 ∧ ior 1.0 = 1.8 := by
  unfold ior
  refine ⟨rfl, by nlinarith, by nlinarith, by norm_num, by norm_num, by norm_num⟩

/-- C2 witness: the theorem applied at the midpoint `specular = 0.5`. -/
theorem ior_linear_range_witness :
    (0 : ℚ) ≤ 0.5 ∧ (0.5 : ℚ) ≤ 1 ∧
    (ior 0.5 = 1.0 + 0.5 * 0.8 ∧ 1 ≤ ior 0.5 ∧ ior 0.5 ≤ 1.8 ∧
     ior 0.0 = 1.0 ∧ ior 0.5 = 1.4 ∧ ior 1.0 = 1.8) :=
  ⟨by norm_num, by norm_num, ior_linear_range 0.5 (by norm_num) (by norm_num)⟩

/-- C5: each of the ten slider callbacks, applied with a value in `[0,1]`,
rewrites exactly its own field of the store (position `idx` in the field
list) and leaves every other field unchanged. -/
theorem slider_updates_exactly_its_field (v : ℚ) (p : Params)
    (h0 : 0 ≤ v) (h1 : v ≤ 1) :
    paramFields (update_base_color_r v p) = (paramFields p).set 0 v ∧
    paramFields (update_base_color_g v p) = (paramFields p).set 1 v ∧
    paramFields (update_base_color_b v p) = (paramFields p).set 2 v ∧
    paramFields (update_metallic v p) = (paramFields p).set 3 v ∧
    paramFields (update_roughness v p) = (paramFields p).set 4 v ∧
    paramFields (update_specular v p) = (paramFields p).set 5 v ∧
    paramFields (update_anisotropic v p) = (paramFields p).set 6 v ∧
    paramFields (update_anisotropic_rotation v p) = (paramFields p).set 7 v ∧
    paramFields (update_clearcoat v p) = (paramFields p).set 8 v ∧
    paramFields (update_clearcoat_roughness v p) = (paramFields p).set 9 v :=
  ⟨rfl, rfl, rfl, rfl, rfl, rfl, rfl, rfl, rfl, rfl⟩

/-- C5 witness: the theorem applied at `v = 0.5` on the initial store. -/
theorem slider_updates_exactly_its_field_witness :
    (0 : ℚ) ≤ 0.5 ∧ (0.5 : ℚ) ≤ 1 ∧
    (paramFields (update_base_color_r 0.5 initParams) = (paramFields initParams).set 0 0.5 ∧
     paramFields (update_base_color_g 0.5 initParams) = (paramFields initParams).set 1 0.5 ∧
     paramFields (update_base_color_b 0.5 initParams) = (paramFields initParams).set 2 0.5 ∧
     paramFields (update_metallic 0.5 initParams) = (paramFields initParams).set 3 0.5 ∧
     paramFields (update_roughness 0.5 initParams) = (paramFields initParams).set 4 0.5 ∧
     paramFields (update_specular 0.5 initParams) = (paramFields initParams).set 5 0.5 ∧
     paramFields (update_anisotropic 0.5 initParams) = (paramFields initParams).set 6 0.5 ∧
     paramFields (update_anisotropic_rotation 0.5 initParams) = (paramFields initParams).set 7 0.5 ∧
     paramFields (update_clearcoat 0.5 initParams) = (paramFields initParams).set 8 0.5 ∧
     paramFields (update_clearcoat_roughness 0.5 initParams) = (paramFields initParams).set 9 0.5) :=
  ⟨by norm_num, by norm_num,
   slider_updates_exactly_its_field 0.5 initParams (by norm_num) (by norm_num)⟩

/-- C6: applying the preset named "chrome" sets base color to
`[0.88, 0.88, 0.88]`, metallic to 1.0, roughness to 0.05, clearcoat to 0.0
and resets anisotropic rotation to 0.0, whatever the prior store. -/
theorem chrome_preset_fields (p : Params) :
    (apply_preset "chrome" p).1.base_color_r = 0.88 ∧
    (apply_preset "chrome" p).1.base_color_g = 0.88 ∧
    (apply_preset "chrome" p).1.base_color_b = 0.88 ∧
    (apply_preset "chrome" p).1.metallic = 1.0 ∧
    (apply_preset "chrome" p).1.roughness = 0.05 ∧
    (apply_preset "chrome" p).1.clearcoat = 0.0 ∧
    (apply_preset "chrome" p).1.anisotropic_rotation = 0.0 :=
  ⟨rfl, rfl, rfl, rfl, rfl, rfl, rfl⟩

/-- C4: an unknown preset name is a silent no-op: the store is returned
unchanged and no push/redraw happens (the boolean push flag is false). -/
theorem unknown_preset_noop (name : String) (p : Params)
    (h : name ∉ presetNames) :
    apply_preset name p = (p, false) := by
  simp only [presetNames, List.mem_cons, List.not_mem_nil, or_false, not_or] at h
  obtain ⟨h1, h2, h3, h4, h5, h6, h7⟩ := h
  unfold apply_preset presets
  rw [if_neg h1, if_neg h2, if_neg h3, if_neg h4, if_neg h5, if_neg h6, if_neg h7]

/-- C4 witness: the theorem applied at the unknown name "steel". -/
theorem unknown_preset_noop_witness :
    "steel" ∉ presetNames ∧ apply_preset "steel" initParams = (initParams, false) :=
  ⟨by decide, unknown_preset_noop "steel" initParams (by decide)⟩

/-- C7: a push (`update_materials`) writes all eight exposed properties on
both registered actors from the store at call time — color, metallic,
roughness, derived IOR, anisotropy, anisotropy rotation, coat strength,
coat roughness — and then requests exactly one redraw. -/
theorem update_materials_pushes_all (p : Params) (sc : Scene) :
    ((update_materials p sc).sphere_actor.color =
       (p.base_color_r, p.base_color_g, p.base_color_b) ∧
     (update_materials p sc).sphere_actor.metallic = p.metallic ∧
     (update_materials p sc).sphere_actor.roughness = p.roughness ∧
     (update_materials p sc).sphere_actor.baseIOR = ior p.specular ∧
     (update_materials p sc).sphere_actor.anisotropy = p.anisotropic ∧
     (update_materials p sc).sphere_actor.anisotropyRotation = p.anisotropic_rotation ∧
     (update_materials p sc).sphere_actor.coatStrength = p.clearcoat ∧
     (update_materials p sc).sphere_actor.coatRoughness = p.clearcoat_roughness) ∧
    ((update_materials p sc).torus_actor.color =
       (p.base_color_r, p.base_color_g, p.base_color_b) ∧
     (update_materials p sc).torus_actor.metallic = p.metallic ∧
     (update_materials p sc).torus_actor.roughness = p.roughness ∧
     (update_materials p sc).torus_actor.baseIOR = ior p.specular ∧
     (update_materials p sc).torus_actor.anisotropy = p.anisotropic ∧
     (update_materials p sc).torus_actor.anisotropyRotation = p.anisotropic_rotation ∧
     (update_materials p sc).torus_actor.coatStrength = p.clearcoat ∧
     (update_materials p sc).torus_actor.coatRoughness = p.clearcoat_roughness) ∧
    (update_materials p sc).renders = sc.renders + 1 :=
  ⟨⟨rfl, rfl, rfl, rfl, rfl, rfl, rfl, rfl⟩,
   ⟨rfl, rfl, rfl, rfl, rfl, rfl, rfl, rfl⟩, rfl⟩

/-- C10: after any push, the sphere actor and the torus-knot actor hold
identical values for all eight material properties: they can never
diverge. -/
theorem actors_never_diverge (p : Params) (sc : Scene) :
    (update_materials p sc).sphere_actor = (update_materials p sc).torus_actor :=
  rfl

/-- C8: every known preset overwrites the full store in one step,
independently of the prior store contents, sets the push flag, always
resets anisotropic rotation and clearcoat roughness to 0, and reads the
optional scalars through their defaults (specular 0.5, anisotropic 0,
clearcoat 0). -/
theorem known_preset_full_overwrite (name : String) (p1 p2 : Params)
    (pr : Preset) (h : name ∈ presetNames) :
    (apply_preset name p1).1 = (apply_preset name p2).1 ∧
    (apply_preset name p1).2 = true ∧
    (apply_preset name p1).1.anisotropic_rotation = 0.0 ∧
    (apply_preset name p1).1.clearcoat_roughness = 0.0 ∧
    (apply_preset_data pr).specular = pr.specular.getD 0.5 ∧
    (apply_preset_data pr).anisotropic = pr.anisotropic.getD 0.0 ∧
    (apply_preset_data pr).clearcoat = pr.clearcoat.getD 0.0 := by
  fin_cases h <;> exact ⟨rfl, rfl, rfl, rfl, rfl, rfl, rfl⟩

/-- C8 witness: the theorem applied to the "gold" preset name, two distinct
prior stores, and a preset record with all optional scalars absent. -/
theorem known_preset_full_overwrite_witness :
    "gold" ∈ presetNames ∧
    ((apply_preset "gold" initParams).1 =
       (apply_preset "gold" (update_metallic 0.25 initParams)).1 ∧
     (apply_preset "gold" initParams).2 = true ∧
     (apply_preset "gold" initParams).1.anisotropic_rotation = 0.0 ∧
     (apply_preset "gold" initParams).1.clearcoat_roughness = 0.0 ∧
     (apply_preset_data
        { color := (1.0, 0.7, 0.3), metallic := 1.0, roughness := 0.2,
          specular := none, anisotropic := none, clearcoat := none }).specular =
       (none : Option ℚ).getD 0.5 ∧
     (apply_preset_data
        { color := (1.0, 0.7, 0.3), metallic := 1.0, roughness := 0.2,
          specular := none, anisotropic := none, clearcoat := none }).anisotropic =
       (none : Option ℚ).getD 0.0 ∧
     (apply_preset_data
        { color := (1.0, 0.7, 0.3), metallic := 1.0, roughness := 0.2,
          specular := none, anisotropic := none, clearcoat := none }).clearcoat =
       (none : Option ℚ).getD 0.0) :=
  ⟨by decide,
   known_preset_full_overwrite "gold" initParams (update_metallic 0.25 initParams)
     { color := (1.0, 0.7, 0.3), metallic := 1.0, roughness := 0.2,
       specular := none, anisotropic := none, clearcoat := none }
     (by decide)⟩

/-- Helper for C9: applying any preset name — known or unknown — keeps the
store inside its declared unit-interval ranges. -/
theorem apply_preset_keeps_range (name : String) (p : Params) (hp : inRange p) :
    inRange (apply_preset name p).1 := by
  unfold apply_preset presets
  split_ifs <;>
    first
      | (change inRange (apply_preset_data _)
         unfold inRange inUnit apply_preset_data
         norm_num)
      | exact hp

/-- C9: at construction the store holds mid-gray base color `[0.5,0.5,0.5]`,
metallic 0, roughness 0.5, specular 0.5, and 0 for the remaining fields;
every field lies in its declared unit-interval range initially, after any
slider callback with a value in `[0,1]`, and after any preset
application. -/
theorem params_defaults_and_ranges (p : Params) (v : ℚ) (name : String)
    (hp : inRange p) (h0 : 0 ≤ v) (h1 : v ≤ 1) :
    (initParams.base_color_r = 0.5 ∧ initParams.base_color_g = 0.5 ∧
     initParams.base_color_b = 0.5 ∧ initParams.metallic = 0.0 ∧
     initParams.roughness = 0.5 ∧ initParams.specular = 0.5 ∧
     initParams.anisotropic = 0.0 ∧ initParams.anisotropic_rotation = 0.0 ∧
     initParams.clearcoat = 0.0 ∧ initParams.clearcoat_roughness = 0.0) ∧
    inRange initParams ∧
    inRange (update_base_color_r v p) ∧
    inRange (update_base_color_g v p) ∧
    inRange (update_base_color_b v p) ∧
    inRange (update_metallic v p) ∧
    inRange (update_roughness v p) ∧
    inRange (update_specular v p) ∧
    inRange (update_anisotropic v p) ∧
    inRange (update_anisotropic_rotation v p) ∧
    inRange (update_clearcoat v p) ∧
    inRange (update_clearcoat_roughness v p) ∧
    inRange (apply_preset name p).1 := by
  obtain ⟨hr, hg, hb, hm, hro, hs, ha, har, hc, hcr⟩ := hp
  refine ⟨⟨rfl, rfl, rfl, rfl, rfl, rfl, rfl, rfl, rfl, rfl⟩,
    by unfold inRange inUnit initParams; norm_num,
    ⟨⟨h0, h1⟩, hg, hb, hm, hro, hs, ha, har, hc, hcr⟩,
    ⟨hr, ⟨h0, h1⟩, hb, hm, hro, hs, ha, har, hc, hcr⟩,
    ⟨hr, hg, ⟨h0, h1⟩, hm, hro, hs, ha, har, hc, hcr⟩,
    ⟨hr, hg, hb, ⟨h0, h1⟩, hro, hs, ha, har, hc, hcr⟩,
    ⟨hr, hg, hb, hm, ⟨h0, h1⟩, hs, ha, har, hc, hcr⟩,
    ⟨hr, hg, hb, hm, hro, ⟨h0, h1⟩, ha, har, hc, hcr⟩,
    ⟨hr, hg, hb, hm, hro, hs, ⟨h0, h1⟩, har, hc, hcr⟩,
    ⟨hr, hg, hb, hm, hro, hs, ha, ⟨h0, h1⟩, hc, hcr⟩,
    ⟨hr, hg, hb, hm, hro, hs, ha, har, ⟨h0, h1⟩, hcr⟩,
    ⟨hr, hg, hb, hm, hro, hs, ha, har, hc, ⟨h0, h1⟩⟩,
    apply_preset_keeps_range name p ⟨hr, hg, hb, hm, hro, hs, ha, har, hc, hcr⟩⟩

/-- C9 witness: the theorem applied to the initial store, slider value 0.5
and the "chrome" preset. -/
theorem params_defaults_and_ranges_witness :
    inRange initParams ∧ (0 : ℚ) ≤ 0.5 ∧ (0.5 : ℚ) ≤ 1 ∧
    ((initParams.base_color_r = 0.5 ∧ initParams.base_color_g = 0.5 ∧
      initParams.base_color_b = 0.5 ∧ initParams.metallic = 0.0 ∧
      initParams.roughness = 0.5 ∧ initParams.specular = 0.5 ∧
      initParams.anisotropic = 0.0 ∧ initParams.anisotropic_rotation = 0.0 ∧
      initParams.clearcoat = 0.0 ∧ initParams.clearcoat_roughness = 0.0) ∧
     inRange initParams ∧
     inRange (update_base_color_r 0.5 initParams) ∧
     inRange (update_base_color_g 0.5 initParams) ∧
     inRange (update_base_color_b 0.5 initParams) ∧
     inRange (update_metallic 0.5 initParams) ∧
     inRange (update_roughness 0.5 initParams) ∧
     inRange (update_specular 0.5 initParams) ∧
     inRange (update_anisotropic 0.5 initParams) ∧
     inRange (update_anisotropic_rotation 0.5 initParams) ∧
     inRange (update_clearcoat 0.5 initParams) ∧
     inRange (update_clearcoat_roughness 0.5 initParams) ∧
     inRange (apply_preset "chrome" initParams).1) :=
  ⟨by unfold inRange inUnit initParams; norm_num, by norm_num, by norm_num,
   params_defaults_and_ranges initParams 0.5 "chrome"
     (by unfold inRange inUnit initParams; norm_num) (by norm_num) (by norm_num)⟩

/-- C1 counterexample: the claim's half-open spacing `t_i = 2*pi*i/resolution`
fails on the code already at resolution 2: `np.linspace(0, 2*pi, 2)` puts
its second sample at `2*pi`, not at the claimed `2*pi*1/2 = pi`. -/
theorem torus_knot_spacing_counterexample :
    torusKnotT 2 1 ≠ 2 * Real.pi * 1 / 2 := by
  have hπ := Real.pi_ne_zero
  unfold torusKnotT
  norm_num
  intro h
  exact hπ (by linarith)

/-- C1 (amended): for every resolution ≥ 2, the torus-knot builder samples
the parametric curve `r(t) = cos(q*t) + 2`, `x = r*cos(p*t)`,
`y = r*sin(p*t)`, `z = -sin(q*t)` at `resolution` values of `t` uniformly
spaced over the closed interval `[0, 2*pi]` — `t_i = 2*pi*i/(resolution-1)`
— so the sample at `t = 2*pi` is present and duplicates the point at
`t = 0`. -/
theorem torus_knot_closed_interval_sampling (p q resolution i : ℕ)
    (h2 : 2 ≤ resolution) (hi : i < resolution) :
    (torusKnotCurve p q resolution).length = resolution ∧
    (torusKnotCurve p q resolution).getD i (0, 0, 0) =
      torusKnotPoint p q (2 * Real.pi * i / (resolution - 1)) ∧
    torusKnotT resolution i = 2 * Real.pi * i / (resolution - 1) ∧
    torusKnotPoint p q (torusKnotT resolution (resolution - 1)) =
      torusKnotPoint p q (torusKnotT resolution 0) := by
  have hg : ¬ resolution ≤ 1 := by omega
  have hT : ∀ j : ℕ, torusKnotT resolution j = 2 * Real.pi * j / (resolution - 1) := by
    intro j; unfold torusKnotT; rw [if_neg hg]
  have hne : (resolution : ℝ) - 1 ≠ 0 := by
    have : (2 : ℝ) ≤ (resolution : ℝ) := by exact_mod_cast h2
    linarith
  have hlast : torusKnotT resolution (resolution - 1) = 2 * Real.pi := by
    rw [hT]
    have hcast : ((resolution - 1 : ℕ) : ℝ) = (resolution : ℝ) - 1 := by
      have h1 : 1 ≤ resolution := by omega
      push_cast [h1]
      ring
    rw [hcast, mul_div_assoc, div_self hne, mul_one]
  have hzero : torusKnotT resolution 0 = 0 := by
    rw [hT]; simp
  refine ⟨by simp [torusKnotCurve], ?_, hT i, ?_⟩
  · unfold torusKnotCurve
    rw [List.getD_eq_getElem?_getD]
    simp [List.getElem?_map, List.getElem?_range, hi, hT i]
  · rw [hlast, hzero]
    unfold torusKnotPoint
    have hc : ∀ n : ℕ, Real.cos ((n : ℝ) * (2 * Real.pi)) = 1 := fun n =>
      Real.cos_nat_mul_two_pi n
    have hs : ∀ n : ℕ, Real.sin ((n : ℝ) * (2 * Real.pi)) = 0 := fun n => by
      have hq : ((n : ℝ) * (2 * Real.pi)) = ((2 * n : ℕ) : ℝ) * Real.pi := by
        push_cast; ring
      rw [hq]
      exact Real.sin_nat_mul_pi (2 * n)
    simp [hc, hs]

/-- C1 witness: the amended sampling theorem applied at `p = 2`, `q = 3`,
`resolution = 4`, sample index 1. -/
theorem torus_knot_closed_interval_sampling_witness :
    2 ≤ 4 ∧ 1 < 4 ∧
    ((torusKnotCurve 2 3 4).length = 4 ∧
     (torusKnotCurve 2 3 4).getD 1 (0, 0, 0) =
       torusKnotPoint 2 3 (2 * Real.pi * ((1 : ℕ) : ℝ) / (((4 : ℕ) : ℝ) - 1)) ∧
     torusKnotT 4 1 = 2 * Real.pi * ((1 : ℕ) : ℝ) / (((4 : ℕ) : ℝ) - 1) ∧
     torusKnotPoint 2 3 (torusKnotT 4 (4 - 1)) = torusKnotPoint 2 3 (torusKnotT 4 0)) :=
  ⟨by norm_num, by norm_num,
   torus_knot_closed_interval_sampling 2 3 4 1 (by norm_num) (by norm_num)⟩

/-- C3 counterexample: at resolution 2 (below the claimed minimum of 3) the
builder does not signal InvalidArgument — it returns the sampled polyline,
here with 2 curve points. -/
theorem torus_knot_low_resolution_returns_mesh :
    (create_torus_knot 2 3 2).isOk = true ∧
    create_torus_knot 2 3 2 ≠ .error MeshError.InvalidArgument ∧
    (torusKnotCurve 2 3 2).length = 2 := by
  refine ⟨rfl, by simp [create_torus_knot], by simp [torusKnotCurve]⟩

/-- C3 (amended): mesh construction in the repository never fails: the
torus-knot builder validates nothing and returns the polyline of exactly
`resolution` sampled points for every argument, so no InvalidArgument path
exists in this code. -/
theorem create_torus_knot_never_fails (p q resolution : ℕ) :
    create_torus_knot p q resolution = .ok (torusKnotCurve p q resolution) ∧
    create_torus_knot p q resolution ≠ .error MeshError.InvalidArgument ∧
    (torusKnotCurve p q resolution).length = resolution := by
  refine ⟨rfl, by simp [create_torus_knot], by simp [torusKnotCurve]⟩
